import Mathlib

/-!
Shallow embedding of the event-adaptation layer of the AG Grid wrapper
(`lt_reflex_ag_grid_wrapper/ag_grid.py`).

The wrapper's event-spec functions generate small JavaScript expressions that
run in the browser, mapping the grid's native event object to the payload
delivered to application handlers.  We embed the semantics of those generated
expressions: native events are modelled as JSON-like objects together with a
structured view of the live grid API that the snippets query, and each
adapter becomes a Lean function `NativeGridEvent → Except String (List JVal)`
(`.error` models a thrown JS `TypeError`, e.g. a member access on
`undefined`).

The `AgGrid.create` prop processing and the dynamic `AgGridAPI.__getattr__`
method-call builder are embedded as pure functions on association lists and
strings respectively.
-/

namespace AgGridWrapper

/-- JavaScript values as seen by the generated adapter snippets: primitives,
arrays, plain objects (ordered key-value lists, as JS object spread sees
them), plus `undefined` for `undefined` and `jhandle` for the grid's
non-serializable internal references (API objects, DOM nodes, column
objects). -/
inductive JVal where
  | undefined : JVal
  | jnull : JVal
  | jbool : Bool → JVal
  | jnum : Int → JVal
  | jstr : String → JVal
  | jarr : List JVal → JVal
  | jobj : List (String × JVal) → JVal
  | jhandle : String → JVal

/-- JavaScript truthiness, as used by `filter(c => c.sort)`. -/
def truthy : JVal → Bool
  | .undefined => false
  | .jnull => false
  | .jbool b => b
  | .jnum n => n != 0
  | .jstr s => s != ""
  | .jarr _ => true
  | .jobj _ => true
  | .jhandle _ => true

/-- Value of a JS property access `v.k` on a value that is not nullish:
objects yield the bound value (or `undefined` when the key is absent), and
primitive values yield `undefined`. -/
def jget : JVal → String → JVal
  | .jobj fs, k => (fs.lookup k).getD .undefined
  | _, _ => .undefined

/-- Whether a JS value is neither `null` nor `undefined` (property access on
it cannot throw). -/
def notNullish : JVal → Bool
  | .undefined => false
  | .jnull => false
  | _ => true

/-- JS property access `v.k` with its failure mode: accessing a property of
`null` or `undefined` throws a `TypeError`. -/
def dotE : JVal → String → Except String JVal
  | .undefined, k => .error ("TypeError: cannot read " ++ k ++ " of undefined")
  | .jnull, k => .error ("TypeError: cannot read " ++ k ++ " of null")
  | v, k => .ok (jget v k)

/-- JS optional chaining `v?.k`: `undefined` when `v` is nullish, otherwise
the property value.  Never throws. -/
def optChain : JVal → String → JVal
  | .undefined, _ => .undefined
  | .jnull, _ => .undefined
  | v, k => jget v k

/-- The live grid API handle carried by every native event (`event.api`),
restricted to the queries the adapters actually perform:
`getSelectedRows()`, `getColumnState()`, `getFilterModel()`, and the three
pagination queries. -/
structure GridApi where
  selectedRows : List JVal
  columnState : List JVal
  filterModel : JVal
  currentPage : Int
  totalPages : Int
  pageSize : Int

/-- A native grid event: its own enumerable data fields (the object the JS
spread `let \x7b..., ...rest\x7d = event` operates on), the live grid API
reachable as `event.api`, and the row node when present (`node = some b`
means `event.node.isSelected()` returns `b`; `none` means the event carries
no row node, so `event.node.isSelected()` would throw). -/
structure NativeGridEvent where
  fields : List (String × JVal)
  api : GridApi
  node : Option Bool

/-- Value of a field of the native event object itself (direct access or
destructuring, e.g. `event.source` or `let \x7browIndex, ...rest\x7d =
event; return rowIndex`). -/
def getField (e : NativeGridEvent) (k : String) : JVal :=
  (e.fields.lookup k).getD .undefined

/-- The native event, seen as the plain JS object of its own fields. -/
def eventObj (e : NativeGridEvent) : JVal :=
  .jobj e.fields

/-- Keys excluded by `_on_cell_event_spec` (ag_grid.py lines 43-49). -/
def cellExcludeKeys : List String :=
  ["context", "api", "columnApi", "column", "node", "event", "eventPath"]

/-- Keys excluded by `_on_row_event_spec` (ag_grid.py lines 52-55). -/
def rowExcludeKeys : List String :=
  ["context", "api", "source", "node", "event", "eventPath"]

/-- Keys excluded by `_on_column_event_spec` (ag_grid.py lines 116-119). -/
def columnExcludeKeys : List String :=
  ["context", "api", "columnApi", "column", "columns", "source"]

/-- Semantics of the JS generated by `exclude_non_serializable_keys`:
`let \x7bk1, ..., kn, ...rest\x7d = event; return rest` — the event object's
own fields minus the excluded keys, in original order. -/
def excludeNonSerializableKeys (excl : List String) (fields : List (String × JVal)) :
    List (String × JVal) :=
  fields.filter (fun kv => decide (kv.1 ∉ excl))

/-- `_on_cell_event_spec`: a single payload element, the event object with
the cell exclude keys stripped. -/
def onCellEventSpec (e : NativeGridEvent) : Except String (List JVal) :=
  .ok [.jobj (excludeNonSerializableKeys cellExcludeKeys e.fields)]

/-- `_on_row_event_spec`: a single payload element, the event object with
the row exclude keys stripped. -/
def onRowEventSpec (e : NativeGridEvent) : Except String (List JVal) :=
  .ok [.jobj (excludeNonSerializableKeys rowExcludeKeys e.fields)]

/-- `_on_column_event_spec`: a single payload element, the event object with
the column exclude keys stripped. -/
def onColumnEventSpec (e : NativeGridEvent) : Except String (List JVal) :=
  .ok [.jobj (excludeNonSerializableKeys columnExcludeKeys e.fields)]

/-- `_on_selection_change_spec`: `event.api.getSelectedRows()`,
`event.source`, `event.type` — the selected rows are queried live from the
grid API, never read from the event object. -/
def onSelectionChangeSpec (e : NativeGridEvent) : Except String (List JVal) :=
  .ok [.jarr e.api.selectedRows, getField e "source", getField e "type"]

/-- `_on_cell_value_changed_spec`: extracts `rowIndex`, `colDef.field` and
`newValue`; the `colDef.field` access throws when the event has no `colDef`
object. -/
def onCellValueChangedSpec (e : NativeGridEvent) : Except String (List JVal) :=
  match dotE (getField e "colDef") "field" with
  | .error msg => .error msg
  | .ok fld => .ok [getField e "rowIndex", fld, getField e "newValue"]

/-- `_on_cell_editing_spec`: extracts `rowIndex`, `colDef.field` and
`value`. -/
def onCellEditingSpec (e : NativeGridEvent) : Except String (List JVal) :=
  match dotE (getField e "colDef") "field" with
  | .error msg => .error msg
  | .ok fld => .ok [getField e "rowIndex", fld, getField e "value"]

/-- `_on_row_editing_spec`: extracts `rowIndex` and `event.data`. -/
def onRowEditingSpec (e : NativeGridEvent) : Except String (List JVal) :=
  .ok [getField e "rowIndex", getField e "data"]

/-- The projection applied by `_on_sort_changed_spec`'s `map`: a fresh
object `\x7bcolId: c.colId, sort: c.sort, sortIndex: c.sortIndex\x7d` built
from a column-state entry. -/
def sortEntryProj (c : JVal) : JVal :=
  .jobj [("colId", jget c "colId"), ("sort", jget c "sort"),
    ("sortIndex", jget c "sortIndex")]

/-- Semantics of `getColumnState().filter(c => c.sort).map(c => (\x7bcolId:
c.colId, sort: c.sort, sortIndex: c.sortIndex\x7d))`: walk the column state
in order, keep the columns whose `sort` is truthy, and project each kept one
through `sortEntryProj`.  Evaluating `c.sort` throws when a column-state
entry is nullish. -/
def sortChangedEntries : List JVal → Except String (List JVal)
  | [] => .ok []
  | c :: rest =>
    match dotE c "sort" with
    | .error msg => .error msg
    | .ok s =>
      match sortChangedEntries rest with
      | .error msg => .error msg
      | .ok tail => if truthy s then .ok (sortEntryProj c :: tail) else .ok tail

/-- `_on_sort_changed_spec`: a single payload element, the filtered and
projected column state queried live from the grid API. -/
def onSortChangedSpec (e : NativeGridEvent) : Except String (List JVal) :=
  match sortChangedEntries e.api.columnState with
  | .error msg => .error msg
  | .ok entries => .ok [.jarr entries]

/-- `_on_filter_changed_spec`: `event.api.getFilterModel()`. -/
def onFilterChangedSpec (e : NativeGridEvent) : Except String (List JVal) :=
  .ok [e.api.filterModel]

/-- `_on_pagination_changed_spec`: the three pagination queries on the live
grid API. -/
def onPaginationChangedSpec (e : NativeGridEvent) : Except String (List JVal) :=
  .ok [.jnum e.api.currentPage, .jnum e.api.totalPages, .jnum e.api.pageSize]

/-- `_on_row_selected_spec`: `event.data`, `event.node.isSelected()`,
`rowIndex`; the `isSelected()` call throws when the event carries no row
node. -/
def onRowSelectedSpec (e : NativeGridEvent) : Except String (List JVal) :=
  match e.node with
  | none => .error "TypeError: cannot read isSelected of undefined"
  | some b => .ok [getField e "data", .jbool b, getField e "rowIndex"]

/-- `_on_cell_focused_spec`: `event.rowIndex` and `column?.colId` (optional
chaining, so a missing column yields `undefined` without throwing). -/
def onCellFocusedSpec (e : NativeGridEvent) : Except String (List JVal) :=
  .ok [getField e "rowIndex", optChain (getField e "column") "colId"]

/-- `_on_body_scroll_spec`: `event.direction`, `event.left`, `event.top`. -/
def onBodyScrollSpec (e : NativeGridEvent) : Except String (List JVal) :=
  .ok [getField e "direction", getField e "left", getField e "top"]

/-- `_on_grid_size_changed_spec`: `event.clientWidth`,
`event.clientHeight`. -/
def onGridSizeChangedSpec (e : NativeGridEvent) : Except String (List JVal) :=
  .ok [getField e "clientWidth", getField e "clientHeight"]

/-- The `lambda e0: [e0]` handler spec: the payload is the native event
object itself, unmodified. -/
def passThroughSpec (e : NativeGridEvent) : Except String (List JVal) :=
  .ok [eventObj e]

/-- The event categories wired to handlers in the `AgGrid` component class
(ag_grid.py lines 520-556). -/
inductive EventCategory where
  | gridReady | gridPreDestroyed | firstDataRendered | gridSizeChanged
  | cellClicked | cellDoubleClicked | cellFocused | cellValueChanged
  | cellEditingStarted | cellEditingStopped
  | rowEditingStarted | rowEditingStopped
  | rowClicked | rowDoubleClicked | rowSelected | selectionChanged
  | rowDataUpdated
  | columnResized | columnMoved | columnVisible | columnPinned
  | newColumnsLoaded | displayedColumnsChanged
  | sortChanged | filterChanged | paginationChanged
  | bodyScroll | bodyScrollEnd | modelUpdated | viewportChanged
deriving DecidableEq

/-- The handler table of the `AgGrid` component class: which event spec each
declared `rx.EventHandler` uses (ag_grid.py lines 520-556). -/
def adapterFor : EventCategory → NativeGridEvent → Except String (List JVal)
  | .gridReady => passThroughSpec
  | .gridPreDestroyed => passThroughSpec
  | .firstDataRendered => passThroughSpec
  | .gridSizeChanged => onGridSizeChangedSpec
  | .cellClicked => onCellEventSpec
  | .cellDoubleClicked => onCellEventSpec
  | .cellFocused => onCellFocusedSpec
  | .cellValueChanged => onCellValueChangedSpec
  | .cellEditingStarted => onCellEditingSpec
  | .cellEditingStopped => onCellEditingSpec
  | .rowEditingStarted => onRowEditingSpec
  | .rowEditingStopped => onRowEditingSpec
  | .rowClicked => onRowEventSpec
  | .rowDoubleClicked => onRowEventSpec
  | .rowSelected => onRowSelectedSpec
  | .selectionChanged => onSelectionChangeSpec
  | .rowDataUpdated => passThroughSpec
  | .columnResized => onColumnEventSpec
  | .columnMoved => onColumnEventSpec
  | .columnVisible => onColumnEventSpec
  | .columnPinned => onColumnEventSpec
  | .newColumnsLoaded => passThroughSpec
  | .displayedColumnsChanged => passThroughSpec
  | .sortChanged => onSortChangedSpec
  | .filterChanged => onFilterChangedSpec
  | .paginationChanged => onPaginationChangedSpec
  | .bodyScroll => onBodyScrollSpec
  | .bodyScrollEnd => onBodyScrollSpec
  | .modelUpdated => passThroughSpec
  | .viewportChanged => passThroughSpec

/-- The pass-through categories: their handlers are declared as
`rx.EventHandler[lambda e0: [e0]]`. -/
def passThroughCats : List EventCategory :=
  [.gridReady, .gridPreDestroyed, .firstDataRendered, .rowDataUpdated,
   .newColumnsLoaded, .displayedColumnsChanged, .modelUpdated, .viewportChanged]

/-- The categories whose adapter strips an exclude-key set and forwards the
rest of the event object: cell interaction, row interaction and
column-structural events. -/
def strippingCats : List EventCategory :=
  [.cellClicked, .cellDoubleClicked, .rowClicked, .rowDoubleClicked,
   .columnResized, .columnMoved, .columnVisible, .columnPinned]

/-- The exclude-key set each stripping category's spec function passes to
`exclude_non_serializable_keys`. -/
def exclFor : EventCategory → List String
  | .cellClicked => cellExcludeKeys
  | .cellDoubleClicked => cellExcludeKeys
  | .rowClicked => rowExcludeKeys
  | .rowDoubleClicked => rowExcludeKeys
  | .columnResized => columnExcludeKeys
  | .columnMoved => columnExcludeKeys
  | .columnVisible => columnExcludeKeys
  | .columnPinned => columnExcludeKeys
  | _ => []

/-- Well-formedness of a native event for a category: exactly the shape the
category's generated JS needs in order not to throw.  Cell value/editing
events need a non-nullish `colDef`; sort-changed needs every column-state
entry non-nullish; row-selected needs a row node.  All other categories
accept any event. -/
def wellFormed : EventCategory → NativeGridEvent → Bool
  | .cellValueChanged, e => notNullish (getField e "colDef")
  | .cellEditingStarted, e => notNullish (getField e "colDef")
  | .cellEditingStopped, e => notNullish (getField e "colDef")
  | .sortChanged, e => e.api.columnState.all notNullish
  | .rowSelected, e => e.node.isSome
  | _, _ => true

/-- Top-level keys of the objects among a payload's elements: the keys an
application handler can observe on the delivered mappings. -/
def payloadObjKeys (p : List JVal) : List String :=
  p.flatMap (fun v => match v with | .jobj fs => fs.map Prod.fst | _ => [])

/-- Top-level object keys of an adapter result (none when it threw). -/
def resultObjKeys : Except String (List JVal) → List String
  | .ok p => payloadObjKeys p
  | .error _ => []

/-- The non-serializable handle fields of native events named by the spec:
the internal context, the API handles, column objects, the row node, the raw
DOM event and its path. -/
def nonSerializableKeys : List String :=
  ["context", "api", "columnApi", "column", "columns", "node", "event", "eventPath"]

/-- Whether a list of emitted sort entries is ordered by their `sortIndex`
values ascending (comparing only numeric sort indexes). -/
def orderedBySortIndex : List JVal → Bool
  | [] => true
  | [_] => true
  | a :: b :: rest =>
    (match jget a "sortIndex", jget b "sortIndex" with
     | .jnum i, .jnum j => decide (i ≤ j)
     | _, _ => false) && orderedBySortIndex (b :: rest)

/-- Values a prop can take in the `AgGrid.create` props dictionary: strings,
numbers, booleans, nested dicts, an event handler carrying its JS text, the
computed light-dark class-name pair, or any other opaque value. -/
inductive PropVal where
  | str : String → PropVal
  | num : Int → PropVal
  | boolean : Bool → PropVal
  | dict : List (String × PropVal) → PropVal
  | handlerJs : String → PropVal
  | className : String → String → PropVal
  | other : String → PropVal

/-- Python dict assignment `props[k] = v`: replace the value in place when
the key exists, append otherwise. -/
def setProp : List (String × PropVal) → String → PropVal → List (String × PropVal)
  | [], k, v => [(k, v)]
  | (k0, v0) :: rest, k, v =>
    if k0 = k then (k, v) :: rest else (k0, v0) :: setProp rest k v

/-- Python `props.pop(k, d)`: the bound value (or the default) together with
the dict without the key. -/
def popProp : List (String × PropVal) → String → PropVal → PropVal × List (String × PropVal)
  | [], _, d => (d, [])
  | (k0, v0) :: rest, k, d =>
    if k0 = k then (v0, rest)
    else
      let r := popProp rest k d
      (r.1, (k0, v0) :: r.2)

/-- Python `k in props`. -/
def hasKey : List (String × PropVal) → String → Bool
  | [], _ => false
  | (k0, _) :: rest, k => k0 = k || hasKey rest k

/-- Python `props.get(k)` as an option: the value at the key, if present. -/
def lookupProp : List (String × PropVal) → String → Option PropVal
  | [], _ => none
  | (k0, v0) :: rest, k => if k0 = k then some v0 else lookupProp rest k

/-- The `size_columns_to_fit` callback (ag_grid.py lines 158-161): an event
chain whose JS invokes `event.api.sizeColumnsToFit()`. -/
def sizeColumnsToFit : PropVal :=
  .handlerJs "(event) => event.api.sizeColumnsToFit()"

/-- The `rx.match(theme, ...)` expression of `AgGrid.create` (ag_grid.py
lines 571-578): each recognised theme string selects its
`rx.color_mode_cond(light, dark)` class pair, every other value falls to the
default empty string. -/
def themeClassName : PropVal → PropVal
  | .str "quartz" => .className "ag-theme-quartz" "ag-theme-quartz-dark"
  | .str "balham" => .className "ag-theme-balham" "ag-theme-balham-dark"
  | .str "alpine" => .className "ag-theme-alpine" "ag-theme-alpine-dark"
  | .str "material" => .className "ag-theme-material" "ag-theme-material-dark"
  | _ => .str ""

/-- The props processing of `AgGrid.create` (ag_grid.py lines 558-584): set
`id`, pop `theme` with default `"quartz"`, set `class_name` from the popped
theme, and when `auto_size_strategy` is among the props overwrite
`on_grid_ready` with the `size_columns_to_fit` callback.  The result is the
props dictionary handed to component construction. -/
def agGridCreate (id : String) (props : List (String × PropVal)) :
    List (String × PropVal) :=
  let props1 := setProp props "id" (.str id)
  let tp := popProp props1 "theme" (.str "quartz")
  let props2 := setProp tp.2 "class_name" (themeClassName tp.1)
  if hasKey props2 "auto_size_strategy" then
    setProp props2 "on_grid_ready" sizeColumnsToFit
  else
    props2

/-- The class-level default of the `theme` grid option (ag_grid.py line
516). -/
def themeDefault : String := "legacy"

/-- Models the host framework's field defaulting: a component option absent
from the construction props takes its class-level default, so the grid's
`theme` option is `"legacy"` unless the props carry a `theme` key. -/
def componentTheme (ps : List (String × PropVal)) : PropVal :=
  (lookupProp ps "theme").getD (.str themeDefault)

/-- A word separator for camel-casing: hyphen or underscore. -/
def camelSep (c : Char) : Bool := c = '-' || c = '_'

/-- Splitting a character list on separators; like Python's `re.split`, the
result always has at least one (possibly empty) word. -/
def camelWords : List Char → List (List Char)
  | [] => [[]]
  | c :: rest =>
    match camelWords rest with
    | [] => [[]]
    | w :: ws => if camelSep c then [] :: w :: ws else (c :: w) :: ws

/-- Python's `str.capitalize`: first character uppercased, the rest
lowercased. -/
def pyCapitalize : List Char → List Char
  | [] => []
  | c :: cs => c.toUpper :: cs.map Char.toLower

/-- Models the host framework's `format.to_camel_case`: leading underscores
and hyphens are preserved, the remainder is split on underscores and
hyphens, the first word is kept as is and each later word is
capitalized. -/
def toCamelCase (text : String) : String :=
  let cs := text.toList
  let leading := cs.takeWhile camelSep
  let rest := cs.dropWhile camelSep
  match camelWords rest with
  | [] => String.mk leading
  | w :: ws => String.mk (leading ++ w ++ (ws.map pyCapitalize).flatten)

/-- The `AgGridAPI._api` property (ag_grid.py lines 340-343): the JS
expression reaching the grid's live API through the component ref. -/
def apiRef (ref : String) : String :=
  "refs[\x27" ++ ref ++ "\x27]?.current?.api"

/-- The script text built by `AgGridAPI.__getattr__` (ag_grid.py lines
345-353) for a dynamic method call: the camel-cased method name applied on
the live API reference, with the already-rendered arguments joined by
commas.  This string is what `rx.call_script` receives. -/
def callApi (ref name : String) (args : List String) : String :=
  apiRef ref ++ "." ++ toCamelCase name ++ "(" ++ String.intercalate ", " args ++ ")"

/-- The attributes defined on the `AgGridAPI` class itself; any other
attribute access is routed to `__getattr__` and becomes a dynamic API
call. -/
def agGridApiDefinedAttrs : List String := ["ref", "create", "_api"]

/-! Shared lemmas about the embedded operations. -/

theorem dotE_eq_ok {v : JVal} (h : notNullish v = true) (k : String) :
    dotE v k = .ok (jget v k) := by
  cases v <;> simp_all [notNullish, dotE]

theorem mem_keys_excludeNonSerializableKeys {excl : List String}
    {fs : List (String × JVal)} {k : String} (hk : k ∈ excl) :
    k ∉ (excludeNonSerializableKeys excl fs).map Prod.fst := by
  intro hmem
  rw [List.mem_map] at hmem
  obtain ⟨kv, hkv, hfst⟩ := hmem
  rw [excludeNonSerializableKeys, List.mem_filter, decide_eq_true_eq] at hkv
  exact hkv.2 (hfst ▸ hk)

theorem mem_excludeNonSerializableKeys_of_mem {excl : List String}
    {fs : List (String × JVal)} {k : String} {v : JVal}
    (h : (k, v) ∈ fs) (hk : k ∉ excl) :
    (k, v) ∈ excludeNonSerializableKeys excl fs := by
  rw [excludeNonSerializableKeys, List.mem_filter, decide_eq_true_eq]
  exact ⟨h, hk⟩

theorem sortChangedEntries_eq {cs : List JVal} (h : cs.all notNullish = true) :
    sortChangedEntries cs =
      .ok ((cs.filter (fun c => truthy (jget c "sort"))).map sortEntryProj) := by
  induction cs with
  | nil => rfl
  | cons c rest ih =>
    simp only [List.all_cons, Bool.and_eq_true] at h
    obtain ⟨hc, hrest⟩ := h
    rw [sortChangedEntries, dotE_eq_ok hc, ih hrest, List.filter_cons]
    by_cases ht : truthy (jget c "sort") = true <;> simp [ht]

theorem adapterFor_stripping {cat : EventCategory} (hc : cat ∈ strippingCats)
    (e : NativeGridEvent) :
    adapterFor cat e =
      .ok [.jobj (excludeNonSerializableKeys (exclFor cat) e.fields)] := by
  simp only [strippingCats, List.mem_cons, List.not_mem_nil, or_false] at hc
  rcases hc with rfl | rfl | rfl | rfl | rfl | rfl | rfl | rfl <;> rfl

theorem adapterFor_passThrough {cat : EventCategory} (hc : cat ∈ passThroughCats)
    (e : NativeGridEvent) :
    adapterFor cat e = .ok [eventObj e] := by
  simp only [passThroughCats, List.mem_cons, List.not_mem_nil, or_false] at hc
  rcases hc with rfl | rfl | rfl | rfl | rfl | rfl | rfl | rfl <;> rfl

theorem lookupProp_eq_none_of_not_mem {ps : List (String × PropVal)} {k : String}
    (h : k ∉ ps.map Prod.fst) : lookupProp ps k = none := by
  induction ps with
  | nil => rfl
  | cons kv rest ih =>
    obtain ⟨k0, v0⟩ := kv
    simp only [List.map_cons, List.mem_cons] at h
    push_neg at h
    have hne : ¬ k0 = k := fun hh => h.1 hh.symm
    simp [lookupProp, hne, ih h.2]

theorem lookupProp_setProp_self (ps : List (String × PropVal)) (k : String)
    (v : PropVal) : lookupProp (setProp ps k v) k = some v := by
  induction ps with
  | nil => simp [setProp, lookupProp]
  | cons kv rest ih =>
    obtain ⟨k0, v0⟩ := kv
    by_cases h : k0 = k <;> simp [setProp, lookupProp, h, ih]

theorem lookupProp_setProp_ne (ps : List (String × PropVal)) {k k' : String}
    (h : k' ≠ k) (v : PropVal) :
    lookupProp (setProp ps k v) k' = lookupProp ps k' := by
  induction ps with
  | nil => simp [setProp, lookupProp, h, h.symm]
  | cons kv rest ih =>
    obtain ⟨k0, v0⟩ := kv
    by_cases h0 : k0 = k
    · subst h0
      simp [setProp, lookupProp, h, h.symm]
    · by_cases h1 : k0 = k' <;> simp [setProp, lookupProp, h, h.symm, h0, h1, ih]

theorem hasKey_setProp_ne (ps : List (String × PropVal)) {k k' : String}
    (h : k' ≠ k) (v : PropVal) :
    hasKey (setProp ps k v) k' = hasKey ps k' := by
  induction ps with
  | nil => simp [setProp, hasKey, h, h.symm]
  | cons kv rest ih =>
    obtain ⟨k0, v0⟩ := kv
    by_cases h0 : k0 = k
    · subst h0
      simp [setProp, hasKey, h, h.symm]
    · simp [setProp, hasKey, h0, ih]

theorem popProp_fst (ps : List (String × PropVal)) (k : String) (d : PropVal) :
    (popProp ps k d).1 = (lookupProp ps k).getD d := by
  induction ps with
  | nil => rfl
  | cons kv rest ih =>
    obtain ⟨k0, v0⟩ := kv
    by_cases h : k0 = k <;> simp [popProp, lookupProp, h, ih]

theorem lookupProp_popProp_ne (ps : List (String × PropVal)) {k k' : String}
    (h : k' ≠ k) (d : PropVal) :
    lookupProp (popProp ps k d).2 k' = lookupProp ps k' := by
  induction ps with
  | nil => rfl
  | cons kv rest ih =>
    obtain ⟨k0, v0⟩ := kv
    by_cases h0 : k0 = k
    · subst h0
      simp [popProp, lookupProp, h, h.symm]
    · by_cases h1 : k0 = k' <;> simp [popProp, lookupProp, h, h.symm, h0, h1, ih]

theorem hasKey_popProp_ne (ps : List (String × PropVal)) {k k' : String}
    (h : k' ≠ k) (d : PropVal) :
    hasKey (popProp ps k d).2 k' = hasKey ps k' := by
  induction ps with
  | nil => rfl
  | cons kv rest ih =>
    obtain ⟨k0, v0⟩ := kv
    by_cases h0 : k0 = k
    · subst h0
      simp [popProp, hasKey, h, h.symm]
    · simp [popProp, hasKey, h0, ih]

theorem mem_keys_setProp {ps : List (String × PropVal)} {k k' : String}
    {v : PropVal} :
    k' ∈ (setProp ps k v).map Prod.fst ↔ k' = k ∨ k' ∈ ps.map Prod.fst := by
  induction ps with
  | nil => simp [setProp]
  | cons kv rest ih =>
    obtain ⟨k0, v0⟩ := kv
    by_cases h : k0 = k
    · subst h
      simp [setProp]
    · simp [setProp, h, ih]
      tauto

theorem nodup_keys_setProp {ps : List (String × PropVal)} {k : String}
    {v : PropVal} (h : (ps.map Prod.fst).Nodup) :
    ((setProp ps k v).map Prod.fst).Nodup := by
  induction ps with
  | nil => simp [setProp]
  | cons kv rest ih =>
    obtain ⟨k0, v0⟩ := kv
    simp only [List.map_cons, List.nodup_cons] at h
    by_cases h0 : k0 = k
    · subst h0
      simpa [setProp] using h
    · have hk0 : k0 ∉ (setProp rest k v).map Prod.fst := by
        rw [mem_keys_setProp]
        push_neg
        exact ⟨h0, h.1⟩
      simp only [setProp, h0, if_false, List.map_cons, List.nodup_cons]
      exact ⟨hk0, ih h.2⟩

theorem lookupProp_popProp_self (ps : List (String × PropVal)) (k : String)
    (d : PropVal) (h : (ps.map Prod.fst).Nodup) :
    lookupProp (popProp ps k d).2 k = none := by
  induction ps with
  | nil => rfl
  | cons kv rest ih =>
    obtain ⟨k0, v0⟩ := kv
    simp only [List.map_cons, List.nodup_cons] at h
    by_cases h0 : k0 = k
    · subst h0
      simp only [popProp]
      exact lookupProp_eq_none_of_not_mem h.1
    · simp [popProp, lookupProp, h0, ih h.2]

/-! Concrete events and props used by witnesses and counterexamples. -/

/-- A grid API with empty state, for concrete test events. -/
def emptyApi : GridApi where
  selectedRows := []
  columnState := []
  filterModel := .jobj []
  currentPage := 0
  totalPages := 0
  pageSize := 0

/-- A grid API whose column state lists the sorted column of sortIndex 1
before the sorted column of sortIndex 0 (column display order need not
follow sort priority), plus an unsorted column. -/
def cexSortApi : GridApi where
  selectedRows := []
  columnState :=
    [.jobj [("colId", .jstr "name"), ("sort", .jstr "asc"), ("sortIndex", .jnum 1)],
     .jobj [("colId", .jstr "age"), ("sort", .jstr "desc"), ("sortIndex", .jnum 0)],
     .jobj [("colId", .jstr "city"), ("sort", .jnull)]]
  filterModel := .jobj []
  currentPage := 0
  totalPages := 1
  pageSize := 10

/-- A sort-changed native event over `cexSortApi`. -/
def cexSortEvent : NativeGridEvent where
  fields := [("type", .jstr "sortChanged"), ("api", .jhandle "gridApi")]
  api := cexSortApi
  node := none

/-- A grid API matching the claim's own example: column state lists
`name` (asc, sortIndex 0), `age` (desc, sortIndex 1) and an unsorted
third column. -/
def exSortApi : GridApi where
  selectedRows := []
  columnState :=
    [.jobj [("colId", .jstr "name"), ("sort", .jstr "asc"), ("sortIndex", .jnum 0)],
     .jobj [("colId", .jstr "age"), ("sort", .jstr "desc"), ("sortIndex", .jnum 1)],
     .jobj [("colId", .jstr "city"), ("sort", .jnull)]]
  filterModel := .jobj []
  currentPage := 0
  totalPages := 1
  pageSize := 10

/-- A sort-changed native event over `exSortApi`. -/
def exSortEvent : NativeGridEvent where
  fields := [("type", .jstr "sortChanged"), ("api", .jhandle "gridApi")]
  api := exSortApi
  node := none

/-- A native event carrying a non-serializable `api` handle field. -/
def cexLeakEvent : NativeGridEvent where
  fields := [("api", .jhandle "gridApi"), ("type", .jstr "gridReady")]
  api := emptyApi
  node := none

/-- A well-formed cell-value-changed native event with `rowIndex = 2`,
`colDef.field = "age"` and `newValue = 31`. -/
def exCellValueEvent : NativeGridEvent where
  fields :=
    [("rowIndex", .jnum 2),
     ("colDef", .jobj [("field", .jstr "age"), ("editable", .jbool true)]),
     ("oldValue", .jnum 30), ("newValue", .jnum 31), ("api", .jhandle "gridApi")]
  api := emptyApi
  node := none

/-- A native cell event containing several excluded handle keys next to
plain data fields. -/
def exStripEvent : NativeGridEvent where
  fields :=
    [("context", .jhandle "ctx"), ("api", .jhandle "gridApi"),
     ("rowIndex", .jnum 0), ("value", .jnum 7), ("event", .jhandle "domEvent")]
  api := emptyApi
  node := some true

/-- A pass-through native event (first data rendered). -/
def exPassEvent : NativeGridEvent where
  fields := [("type", .jstr "firstDataRendered"), ("api", .jhandle "gridApi")]
  api := emptyApi
  node := none

/-- Props with an auto-size strategy and a caller-supplied grid-ready
handler. -/
def exAutoSizeProps : List (String × PropVal) :=
  [("auto_size_strategy", .dict [("type", .str "fitGridWidth")]),
   ("on_grid_ready", .handlerJs "customHandler")]

/-- Props carrying a theme choice and some other option. -/
def exThemeProps : List (String × PropVal) :=
  [("theme", .str "balham"), ("row_data", .dict [])]

/-! Claim theorems. -/

/-- Claim C1, counterexample: the sort-changed adapter emits the entries in
column-state order, which is not in general sortIndex-ascending order.  At
`cexSortEvent` the emitted list is the projection of the `name` column
(sortIndex 1) followed by the `age` column (sortIndex 0), so the claim's
ordering clause is false while its premise (two columns with active sort
state and one unsorted column) holds. -/
theorem sortChanged_not_ordered_by_sortIndex :
    adapterFor .sortChanged cexSortEvent =
      .ok [.jarr
        [.jobj [("colId", .jstr "name"), ("sort", .jstr "asc"), ("sortIndex", .jnum 1)],
         .jobj [("colId", .jstr "age"), ("sort", .jstr "desc"), ("sortIndex", .jnum 0)]]] ∧
    orderedBySortIndex
        [.jobj [("colId", .jstr "name"), ("sort", .jstr "asc"), ("sortIndex", .jnum 1)],
         .jobj [("colId", .jstr "age"), ("sort", .jstr "desc"), ("sortIndex", .jnum 0)]]
      = false :=
  ⟨rfl, by decide⟩

/-- Claim C1, amended: for every native event whose column-state entries are
non-nullish, the sort-changed payload is a single list holding exactly one
`\x7bcolId, sort, sortIndex\x7d` entry per column with truthy sort state and
no entry for unsorted columns, the entries appearing in the order of the
grid API's column state (not necessarily ordered by sortIndex). -/
theorem sortChanged_entries_follow_column_state (e : NativeGridEvent)
    (h : e.api.columnState.all notNullish = true) :
    adapterFor .sortChanged e =
      .ok [.jarr ((e.api.columnState.filter
        (fun c => truthy (jget c "sort"))).map sortEntryProj)] := by
  show onSortChangedSpec e = _
  rw [onSortChangedSpec, sortChangedEntries_eq h]

/-- Claim C1, witness: the amended theorem applied to the claim's own
example column state. -/
theorem sortChanged_entries_follow_column_state_witness :
    exSortEvent.api.columnState.all notNullish = true ∧
    adapterFor .sortChanged exSortEvent =
      .ok [.jarr ((exSortEvent.api.columnState.filter
        (fun c => truthy (jget c "sort"))).map sortEntryProj)] :=
  ⟨by decide, sortChanged_entries_follow_column_state exSortEvent (by decide)⟩

/-- Claim C2, counterexample: the pass-through adapters do not strip
anything, so a native event's non-serializable `api` field reaches the
payload unfiltered through the grid-ready adapter. -/
theorem passThrough_leaks_api_field :
    adapterFor .gridReady cexLeakEvent = .ok [eventObj cexLeakEvent] ∧
    "api" ∈ nonSerializableKeys ∧
    "api" ∈ resultObjKeys (adapterFor .gridReady cexLeakEvent) :=
  ⟨rfl, by decide, by decide⟩

/-- Claim C2, amended: the stripping adapters (cell interaction, row
interaction, column structural) never deliver a payload object carrying a
key of their configured exclude list, while the pass-through adapters
deliver the native event object unmodified, so its fields — including
non-serializable handles — reach application code unfiltered. -/
theorem non_passThrough_strip_passThrough_unfiltered (cat : EventCategory)
    (e : NativeGridEvent) :
    (cat ∈ strippingCats →
      ∀ k ∈ exclFor cat, k ∉ resultObjKeys (adapterFor cat e)) ∧
    (cat ∈ passThroughCats → adapterFor cat e = .ok [eventObj e]) := by
  refine ⟨fun hc k hk => ?_, fun hp => adapterFor_passThrough hp e⟩
  rw [adapterFor_stripping hc e]
  simpa [resultObjKeys, payloadObjKeys] using
    @mem_keys_excludeNonSerializableKeys (exclFor cat) e.fields k hk

/-- Claim C2, witness: at a concrete event the cell-clicked adapter's
payload carries no `api` key while the grid-ready adapter forwards the
event whole. -/
theorem non_passThrough_strip_passThrough_unfiltered_witness :
    ("api" ∉ resultObjKeys (adapterFor .cellClicked cexLeakEvent)) ∧
    adapterFor .gridReady cexLeakEvent = .ok [eventObj cexLeakEvent] :=
  ⟨(non_passThrough_strip_passThrough_unfiltered .cellClicked cexLeakEvent).1
      (by decide) "api" (by decide),
   (non_passThrough_strip_passThrough_unfiltered .gridReady cexLeakEvent).2
      (by decide)⟩

/-- Claim C3: the selection-changed payload is the ordered triple of the
grid API's live selected rows, the event's source and the event's type; the
selected-rows element depends only on the API state, never on the event
object's own fields. -/
theorem selectionChanged_queries_live_api (e : NativeGridEvent) :
    adapterFor .selectionChanged e =
      .ok [.jarr e.api.selectedRows, getField e "source", getField e "type"] ∧
    ∀ fs : List (String × JVal), ∃ rest,
      adapterFor .selectionChanged { fields := fs, api := e.api, node := e.node } =
        .ok (.jarr e.api.selectedRows :: rest) :=
  ⟨rfl, fun _ => ⟨_, rfl⟩⟩

/-- Claim C4: for every well-formed native event the cell-value-changed
payload is exactly the triple (rowIndex, colDef.field, newValue). -/
theorem cellValueChanged_payload_triple (e : NativeGridEvent) (ri : Int)
    (f : String) (nv : JVal)
    (h1 : getField e "rowIndex" = .jnum ri)
    (h2 : notNullish (getField e "colDef") = true)
    (h3 : jget (getField e "colDef") "field" = .jstr f)
    (h4 : getField e "newValue" = nv) :
    adapterFor .cellValueChanged e = .ok [.jnum ri, .jstr f, nv] := by
  show onCellValueChangedSpec e = _
  rw [onCellValueChangedSpec, dotE_eq_ok h2, h3, h1, h4]

/-- Claim C4, witness: the event with rowIndex 2, colDef.field "age" and
newValue 31 yields exactly the payload (2, "age", 31). -/
theorem cellValueChanged_payload_triple_witness :
    getField exCellValueEvent "rowIndex" = .jnum 2 ∧
    adapterFor .cellValueChanged exCellValueEvent =
      .ok [.jnum 2, .jstr "age", .jnum 31] :=
  ⟨rfl, cellValueChanged_payload_triple exCellValueEvent 2 "age" (.jnum 31)
    rfl rfl rfl rfl⟩

/-- Claim C5: each cell-interaction, row-interaction and column-structural
adapter emits the event object minus its category's exclude keys: no
excluded key appears among the emitted top-level keys, even when the native
event contains it, and every remaining field is forwarded unchanged. -/
theorem stripping_adapters_exclude_and_forward (cat : EventCategory)
    (hc : cat ∈ strippingCats) (e : NativeGridEvent) :
    adapterFor cat e =
      .ok [.jobj (excludeNonSerializableKeys (exclFor cat) e.fields)] ∧
    (∀ k, k ∈ exclFor cat →
      k ∉ (excludeNonSerializableKeys (exclFor cat) e.fields).map Prod.fst) ∧
    (∀ k v, (k, v) ∈ e.fields → k ∉ exclFor cat →
      (k, v) ∈ excludeNonSerializableKeys (exclFor cat) e.fields) :=
  ⟨adapterFor_stripping hc e,
   fun _ hk => mem_keys_excludeNonSerializableKeys hk,
   fun _ _ hm hk => mem_excludeNonSerializableKeys_of_mem hm hk⟩

/-- Claim C5, witness: the theorem applied to the cell-clicked category and
an event containing excluded handle keys. -/
theorem stripping_adapters_exclude_and_forward_witness :
    (EventCategory.cellClicked ∈ strippingCats) ∧
    (adapterFor .cellClicked exStripEvent =
      .ok [.jobj (excludeNonSerializableKeys (exclFor .cellClicked)
        exStripEvent.fields)] ∧
    (∀ k, k ∈ exclFor .cellClicked →
      k ∉ (excludeNonSerializableKeys (exclFor .cellClicked)
        exStripEvent.fields).map Prod.fst) ∧
    (∀ k v, (k, v) ∈ exStripEvent.fields → k ∉ exclFor .cellClicked →
      (k, v) ∈ excludeNonSerializableKeys (exclFor .cellClicked)
        exStripEvent.fields)) :=
  ⟨by decide,
   stripping_adapters_exclude_and_forward .cellClicked (by decide) exStripEvent⟩

/-- Claim C6: every pass-through category's adapter is the identity mapping:
the payload is the native event object itself, unmodified. -/
theorem passThrough_adapters_identity (cat : EventCategory)
    (hc : cat ∈ passThroughCats) (e : NativeGridEvent) :
    adapterFor cat e = .ok [eventObj e] :=
  adapterFor_passThrough hc e

/-- Claim C6, witness: the theorem applied to the first-data-rendered
category and a synthetic event. -/
theorem passThrough_adapters_identity_witness :
    (EventCategory.firstDataRendered ∈ passThroughCats) ∧
    adapterFor .firstDataRendered exPassEvent = .ok [eventObj exPassEvent] :=
  ⟨by decide,
   passThrough_adapters_identity .firstDataRendered (by decide) exPassEvent⟩

/-- Claim C7: on well-formed native events every category's adapter is
total (it returns a payload, never a thrown error) and deterministic (two
events with equal field values, API state and node yield equal payloads; no
state is carried between invocations). -/
theorem adapters_total_and_deterministic (cat : EventCategory)
    (e : NativeGridEvent) (h : wellFormed cat e = true) :
    (∃ p, adapterFor cat e = .ok p) ∧
    (∀ e2 : NativeGridEvent, e.fields = e2.fields → e.api = e2.api →
      e.node = e2.node → adapterFor cat e = adapterFor cat e2) := by
  constructor
  · cases cat
    case cellValueChanged =>
      exact ⟨_, by show onCellValueChangedSpec e = _
                   rw [onCellValueChangedSpec, dotE_eq_ok h]⟩
    case cellEditingStarted =>
      exact ⟨_, by show onCellEditingSpec e = _
                   rw [onCellEditingSpec, dotE_eq_ok h]⟩
    case cellEditingStopped =>
      exact ⟨_, by show onCellEditingSpec e = _
                   rw [onCellEditingSpec, dotE_eq_ok h]⟩
    case sortChanged =>
      exact ⟨_, by show onSortChangedSpec e = _
                   rw [onSortChangedSpec, sortChangedEntries_eq h]⟩
    case rowSelected =>
      rcases hn : e.node with _ | b
      · rw [wellFormed, hn] at h
        simp at h
      · exact ⟨_, by show onRowSelectedSpec e = _
                     rw [onRowSelectedSpec, hn]⟩
    all_goals exact ⟨_, rfl⟩
  · intro e2 h1 h2 h3
    have he : e = e2 := by
      cases e
      cases e2
      simp_all
    rw [he]

/-- Claim C7, witness: the theorem applied to the cell-value-changed
category and a well-formed concrete event. -/
theorem adapters_total_and_deterministic_witness :
    wellFormed .cellValueChanged exCellValueEvent = true ∧
    ((∃ p, adapterFor .cellValueChanged exCellValueEvent = .ok p) ∧
     (∀ e2 : NativeGridEvent, exCellValueEvent.fields = e2.fields →
       exCellValueEvent.api = e2.api → exCellValueEvent.node = e2.node →
       adapterFor .cellValueChanged exCellValueEvent =
         adapterFor .cellValueChanged e2)) :=
  ⟨rfl, adapters_total_and_deterministic .cellValueChanged exCellValueEvent rfl⟩

/-- Claim C8: whenever the props given to `AgGrid.create` contain
`auto_size_strategy`, the constructed component's `on_grid_ready` prop is
the `size_columns_to_fit` callback, regardless of (and replacing) any
handler the caller passed. -/
theorem create_autoSize_overrides_on_grid_ready (id : String)
    (props : List (String × PropVal))
    (h : hasKey props "auto_size_strategy" = true) :
    lookupProp (agGridCreate id props) "on_grid_ready" = some sizeColumnsToFit := by
  simp only [agGridCreate]
  rw [hasKey_setProp_ne _ (by decide), hasKey_popProp_ne _ (by decide),
    hasKey_setProp_ne _ (by decide), h, if_pos rfl,
    lookupProp_setProp_self]

/-- Claim C8, witness: with an auto-size strategy and a caller-supplied
grid-ready handler in the props, the final `on_grid_ready` is the
auto-size callback. -/
theorem create_autoSize_overrides_on_grid_ready_witness :
    hasKey exAutoSizeProps "auto_size_strategy" = true ∧
    lookupProp (agGridCreate "grid_1" exAutoSizeProps) "on_grid_ready" =
      some sizeColumnsToFit :=
  ⟨rfl, create_autoSize_overrides_on_grid_ready "grid_1" exAutoSizeProps rfl⟩

/-- Claim C9: `AgGrid.create` removes the caller's theme value from the
props before construction and uses it only to compute `class_name` (one of
the light-dark class pairs for quartz, balham, alpine, material, the empty
string for any other value, defaulting to quartz when absent); the grid's
`theme` option keeps the class-level default `"legacy"` and is never set
from the caller's theme value. -/
theorem create_theme_isolated_from_grid_option (id : String)
    (props : List (String × PropVal)) (h : (props.map Prod.fst).Nodup) :
    lookupProp (agGridCreate id props) "theme" = none ∧
    componentTheme (agGridCreate id props) = .str themeDefault ∧
    lookupProp (agGridCreate id props) "class_name" =
      some (themeClassName ((lookupProp props "theme").getD (.str "quartz"))) := by
  simp only [agGridCreate]
  set q := popProp (setProp props "id" (PropVal.str id)) "theme" (PropVal.str "quartz")
    with hq
  set ps2 := setProp q.2 "class_name" (themeClassName q.1) with hps2
  have hth2 : lookupProp ps2 "theme" = none := by
    rw [hps2, lookupProp_setProp_ne _ (by decide), hq,
      lookupProp_popProp_self _ _ _ (nodup_keys_setProp h)]
  have hcn : lookupProp ps2 "class_name" =
      some (themeClassName ((lookupProp props "theme").getD (.str "quartz"))) := by
    rw [hps2, lookupProp_setProp_self, hq, popProp_fst,
      lookupProp_setProp_ne _ (by decide)]
  by_cases hask : hasKey ps2 "auto_size_strategy" = true
  · rw [if_pos hask]
    refine ⟨?_, ?_, ?_⟩
    · rw [lookupProp_setProp_ne _ (by decide)]
      exact hth2
    · simp only [componentTheme]
      rw [lookupProp_setProp_ne _ (by decide), hth2]
      rfl
    · rw [lookupProp_setProp_ne _ (by decide)]
      exact hcn
  · rw [if_neg hask]
    refine ⟨hth2, ?_, hcn⟩
    simp only [componentTheme]
    rw [hth2]
    rfl

/-- Claim C9, witness: with a caller-passed balham theme, the constructed
props carry no theme key, the grid's theme option is the class default
`"legacy"`, and the class name is the balham light-dark pair. -/
theorem create_theme_isolated_from_grid_option_witness :
    (exThemeProps.map Prod.fst).Nodup ∧
    (lookupProp (agGridCreate "grid_1" exThemeProps) "theme" = none ∧
     componentTheme (agGridCreate "grid_1" exThemeProps) = .str themeDefault ∧
     lookupProp (agGridCreate "grid_1" exThemeProps) "class_name" =
       some (themeClassName ((lookupProp exThemeProps "theme").getD
         (.str "quartz")))) :=
  ⟨by decide,
   create_theme_isolated_from_grid_option "grid_1" exThemeProps (by decide)⟩

/-- Claim C10: for every attribute name not defined on `AgGridAPI`, the
dynamic method call builds a script whose JavaScript text is exactly the
camel-cased method name applied on `refs[...]?.current?.api` with the
rendered arguments, with no validation restricting the method name. -/
theorem api_getattr_builds_camelCase_call (ref name : String)
    (args : List String) (h : name ∉ agGridApiDefinedAttrs) :
    callApi ref name args =
      ("refs[\x27" ++ ref ++ "\x27]?.current?.api") ++ "." ++ toCamelCase name ++
        "(" ++ String.intercalate ", " args ++ ")" :=
  rfl

/-- Claim C10, witness: `select_all` is not a defined attribute and its
dynamic call renders exactly the expected JS text. -/
theorem api_getattr_builds_camelCase_call_witness :
    ("select_all" ∉ agGridApiDefinedAttrs) ∧
    callApi "grid_1" "select_all" [] =
      "refs[\x27grid_1\x27]?.current?.api.selectAll()" :=
  ⟨by decide, by
    rw [api_getattr_builds_camelCase_call "grid_1" "select_all" [] (by decide)]
    decide⟩

end AgGridWrapper
